import Mathlib

/-!
Shallow embedding of the comazon store API (src/app.js) over an explicit
database state.  Records mirror the Prisma models used by the handlers;
handlers are pure functions from a `DB` and a request to a response and a
new `DB`.  Persistence-layer semantics (atomic `$transaction`, `update`
signalling not-found on a missing id, `take`/`skip` pagination) follow the
documented contract of the ORM used by the code.
-/

namespace Comazon

/-- A product row: id, name, price, category, stock, creation time.
Stock is an integer: the ORM `decrement` operation is unconditional, so the
stored value can in principle go negative. -/
structure Product where
  id : Nat
  name : String
  price : Int
  category : String
  stock : Int
  createdAt : Nat
deriving DecidableEq, Repr

/-- A user row (only the fields the modelled handlers touch). -/
structure User where
  id : Nat
  email : String
  name : String
  createdAt : Nat
deriving DecidableEq, Repr

/-- One persisted order line: product reference, quantity, unit price
captured at order time. -/
structure OrderItem where
  productId : Nat
  quantity : Nat
  unitPrice : Int
deriving DecidableEq, Repr

/-- An order row together with its (nested-created) order items. -/
structure Order where
  id : Nat
  userId : Nat
  status : String
  createdAt : Nat
  orderItems : List OrderItem
deriving DecidableEq, Repr

/-- The database state seen by the handlers. -/
structure DB where
  users : List User
  products : List Product
  orders : List Order
  nextOrderId : Nat
  now : Nat
deriving DecidableEq, Repr

/-- Outcome of a handler: a success response with a body, or an error
response with an HTTP status and message (as produced by the handler itself
or by the `asyncHandler` error translator). -/
inductive HandlerResult (α : Type) where
  | ok (status : Nat) (body : α)
  | err (status : Nat) (message : String)
deriving DecidableEq, Repr

/-- One requested order line in the body of `POST /orders`. -/
structure OrderItemReq where
  productId : Nat
  quantity : Nat
  unitPrice : Int
deriving DecidableEq, Repr

/-- The validated body of `POST /orders`. -/
structure PlaceOrderReq where
  userId : Nat
  orderItems : List OrderItemReq
deriving DecidableEq, Repr

/-- `getQuantity(productId)` from the handler: `orderItems.find(...)` takes
the FIRST line whose productId matches and returns its quantity.  (In the
code the call sites only ever pass ids that occur in `orderItems`, so the
`none` branch is never reached there.) -/
def getQuantity (orderItems : List OrderItemReq) (productId : Nat) : Nat :=
  match orderItems.find? (fun it => it.productId == productId) with
  | some it => it.quantity
  | none => 0

/-- `prisma.product.findMany({ where: { id: { in: productIds } } })`:
each stored product whose id occurs in the requested list, once. -/
def findManyProducts (db : DB) (ids : List Nat) : List Product :=
  db.products.filter (fun p => ids.contains p.id)

/-- `products.every((product) => stock >= getQuantity(id))`: the check
ranges over the FETCHED products only. -/
def isSufficientStock (products : List Product) (orderItems : List OrderItemReq) : Bool :=
  products.all (fun p => (getQuantity orderItems p.id : Int) ≤ p.stock)

/-- `prisma.product.update({ where: { id }, data: { stock: { decrement: q } } })`:
decrements the matching row, or signals not-found (P2025) when no row has
that id, which aborts the enclosing transaction. -/
def decrementProduct (products : List Product) (id : Nat) (q : Nat) :
    Option (List Product) :=
  if products.any (fun p => p.id == id) then
    some (products.map (fun p =>
      if p.id == id then { p with stock := p.stock - (q : Int) } else p))
  else
    none

/-- Runs the list of decrement queries in order; any failure aborts. -/
def runDecrements (products : List Product) :
    List (Nat × Nat) → Option (List Product)
  | [] => some products
  | (id, q) :: rest =>
    match decrementProduct products id q with
    | some ps => runDecrements ps rest
    | none => none

/-- `prisma.order.create` with `user.connect` and nested
`orderItems.create`: fails (P2025) when the owner does not exist. -/
def createOrderRow (db : DB) (userId : Nat) (reqItems : List OrderItemReq) :
    Option (Order × DB) :=
  if db.users.any (fun u => u.id == userId) then
    let o : Order :=
      { id := db.nextOrderId
        userId := userId
        status := "PENDING"
        createdAt := db.now
        orderItems := reqItems.map (fun it =>
          { productId := it.productId
            quantity := it.quantity
            unitPrice := it.unitPrice }) }
    some (o, { db with orders := db.orders ++ [o], nextOrderId := db.nextOrderId + 1 })
  else
    none

/-- `prisma.$transaction([create, ...queries])`: the order creation and all
decrement queries commit together or not at all. -/
def runTx (db : DB) (userId : Nat) (reqItems : List OrderItemReq)
    (queries : List (Nat × Nat)) : Option (Order × DB) :=
  match createOrderRow db userId reqItems with
  | none => none
  | some (o, db1) =>
    match runDecrements db1.products queries with
    | none => none
    | some ps => some (o, { db1 with products := ps })

/-- The `POST /orders` handler.  Mirrors src/app.js lines 275-327: build
`productIds` (one entry per line, duplicates kept), fetch those products,
check sufficiency over the fetched products, reject with 500
"Insufficient Stock" on failure, otherwise run the transaction; a failed
transaction surfaces through `asyncHandler` as 404 (P2025). -/
def postOrders (db : DB) (req : PlaceOrderReq) : HandlerResult Order × DB :=
  let orderItems := req.orderItems
  let productIds := orderItems.map (fun it => it.productId)
  let products := findManyProducts db productIds
  if !isSufficientStock products orderItems then
    (HandlerResult.err 500 ("Insufficient Stock"), db)
  else
    let queries := productIds.map (fun id => (id, getQuantity orderItems id))
    match runTx db req.userId orderItems queries with
    | some (o, db2) => (HandlerResult.ok 200 o, db2)
    | none => (HandlerResult.err 404 (""), db)

/-- `total += orderItem.unitPrice * orderItem.quantity` over the order's
items, starting from 0, as in the `GET /orders/:id` handler. -/
def computeTotal (items : List OrderItem) : Int :=
  items.foldl (fun total it => total + it.unitPrice * (it.quantity : Int)) 0

/-- The `GET /orders/:id` handler (src/app.js lines 252-273):
`findUniqueOrThrow` on the id, then attach the computed `total`; a missing
id surfaces through `asyncHandler` as 404. -/
def getOrderById (db : DB) (id : Nat) : HandlerResult (Order × Int) :=
  match db.orders.find? (fun o => o.id == id) with
  | some o => HandlerResult.ok 200 (o, computeTotal o.orderItems)
  | none => HandlerResult.err 404 ("")

/-- The validated body of `PATCH /orders/:id`.  The handler destructures
only `status` out of it; any other validated fields are carried here as an
opaque list and never consulted. -/
structure PatchOrderBody where
  status : Option String
  extraFields : List (String × String)
deriving DecidableEq, Repr

/-- The `PATCH /orders/:id` handler (src/app.js lines 329-341):
`const \x7b status \x7d = req.body` then
`prisma.order.update(\x7b where: \x7b id \x7d, data: \x7b status \x7d \x7d)`.
An absent `status` field leaves the column untouched (an `undefined`
value in `data` is a no-op); a missing id surfaces as 404. -/
def patchOrderById (db : DB) (id : Nat) (body : PatchOrderBody) :
    HandlerResult Order × DB :=
  match db.orders.find? (fun o => o.id == id) with
  | none => (HandlerResult.err 404 (""), db)
  | some o =>
    let o2 := { o with status := body.status.getD o.status }
    (HandlerResult.ok 200 o2,
     { db with orders := db.orders.map (fun x =>
        if x.id == id then { x with status := body.status.getD x.status } else x) })

/-- Query string of the list endpoints; an absent parameter is `none`. -/
structure ListQuery where
  offset : Option Nat
  limit : Option Nat
  order : Option String
  category : Option String
deriving DecidableEq, Repr

/-- Insertion into a list sorted by `le`. -/
def insertBy (le : α → α → Bool) (a : α) : List α → List α
  | [] => [a]
  | b :: bs => if le a b then a :: b :: bs else b :: insertBy le a bs

/-- Insertion sort by `le`; stands in for the ORM's `orderBy`. -/
def sortBy (le : α → α → Bool) : List α → List α
  | [] => []
  | a :: as => insertBy le a (sortBy le as)

/-- The `GET /users` handler (src/app.js lines 64-89):
`offset = 0, limit = 0, order = newest` defaults, sort, then
`skip`/`take`.  A `take` of 0 returns no rows. -/
def getUsers (db : DB) (q : ListQuery) : List User :=
  let le : User → User → Bool :=
    match q.order.getD ("newest") with
    | "oldest" => fun a b => Nat.ble a.createdAt b.createdAt
    | _ => fun a b => Nat.ble b.createdAt a.createdAt
  ((sortBy le db.users).drop (q.offset.getD 0)).take (q.limit.getD 0)

/-- The `GET /products` handler (src/app.js lines 175-205): same defaults
as `GET /users`, four named orders, optional exact category filter, then
`skip`/`take`. -/
def getProducts (db : DB) (q : ListQuery) : List Product :=
  let le : Product → Product → Bool :=
    match q.order.getD ("newest") with
    | "priceLowest" => fun a b => decide (a.price ≤ b.price)
    | "priceHighest" => fun a b => decide (b.price ≤ a.price)
    | "oldest" => fun a b => Nat.ble a.createdAt b.createdAt
    | _ => fun a b => Nat.ble b.createdAt a.createdAt
  let filtered :=
    match q.category with
    | some c => db.products.filter (fun p => p.category == c)
    | none => db.products
  ((sortBy le filtered).drop (q.offset.getD 0)).take (q.limit.getD 0)

/-! Concrete fixtures used by the concrete-input theorems below. -/

/-- A user on file, id 1. -/
def u1 : User :=
  { id := 1, email := "alice@mail", name := "alice", createdAt := 0 }

/-- Store for the duplicate-line oversell run: one product, stock 5. -/
def dbDup : DB :=
  { users := [u1]
    products := [{ id := 1, name := "pen", price := 100, category := "office", stock := 5, createdAt := 0 }]
    orders := []
    nextOrderId := 1
    now := 0 }

/-- Order body with the same productId on two lines, quantities 3 and 3. -/
def reqDup : PlaceOrderReq :=
  { userId := 1
    orderItems := [{ productId := 1, quantity := 3, unitPrice := 100 },
                   { productId := 1, quantity := 3, unitPrice := 100 }] }

/-- Store for the non-aggregated-decrement run: one product, stock 10. -/
def dbAgg : DB :=
  { users := [u1]
    products := [{ id := 1, name := "pen", price := 100, category := "office", stock := 10, createdAt := 0 }]
    orders := []
    nextOrderId := 1
    now := 0 }

/-- Order body with the same productId on two lines, quantities 3 and 4. -/
def reqAgg : PlaceOrderReq :=
  { userId := 1
    orderItems := [{ productId := 1, quantity := 3, unitPrice := 100 },
                   { productId := 1, quantity := 4, unitPrice := 100 }] }

/-- Store for the sufficiency-boundary runs: one product, stock 5. -/
def dbFive : DB :=
  { users := [u1]
    products := [{ id := 1, name := "pen", price := 100, category := "office", stock := 5, createdAt := 0 }]
    orders := []
    nextOrderId := 1
    now := 0 }

/-- Single-line order for quantity 5 against `dbFive`. -/
def reqFive : PlaceOrderReq :=
  { userId := 1, orderItems := [{ productId := 1, quantity := 5, unitPrice := 100 }] }

/-- Single-line order for quantity 6 against `dbFive`. -/
def reqSix : PlaceOrderReq :=
  { userId := 1, orderItems := [{ productId := 1, quantity := 6, unitPrice := 100 }] }

/-- Store for the missing-product run: only product id 1 exists. -/
def dbMiss : DB :=
  { users := [u1]
    products := [{ id := 1, name := "pen", price := 100, category := "office", stock := 10, createdAt := 0 }]
    orders := []
    nextOrderId := 1
    now := 0 }

/-- Order body referencing the unknown productId 2. -/
def reqMiss : PlaceOrderReq :=
  { userId := 1, orderItems := [{ productId := 2, quantity := 1, unitPrice := 5 }] }

/-- Existing order with items (unitPrice 10, qty 2) and (unitPrice 5, qty 3). -/
def oTotal : Order :=
  { id := 1
    userId := 1
    status := "PENDING"
    createdAt := 0
    orderItems := [{ productId := 1, quantity := 2, unitPrice := 10 },
                   { productId := 2, quantity := 3, unitPrice := 5 }] }

/-- Store holding `oTotal`. -/
def dbTotal : DB :=
  { users := [u1], products := [], orders := [oTotal], nextOrderId := 2, now := 1 }

/-- A second order on file, used to observe the patch frame. -/
def oOther : Order :=
  { id := 2, userId := 1, status := "PENDING", createdAt := 0, orderItems := [] }

/-- Store holding `oTotal` and `oOther` for the patch run. -/
def dbPatch : DB :=
  { users := [u1], products := [], orders := [oTotal, oOther], nextOrderId := 3, now := 1 }

/-- Patch body carrying `status` plus an additional (ignored) field. -/
def bodyPatch : PatchOrderBody :=
  { status := some ("SHIPPED"), extraFields := [("userId", "9")] }

/-- Store with data on file for the default-limit list run. -/
def dbList : DB :=
  { users := [u1]
    products := [{ id := 1, name := "pen", price := 100, category := "office", stock := 5, createdAt := 0 }]
    orders := []
    nextOrderId := 1
    now := 0 }

/-- List query with every parameter omitted. -/
def qNone : ListQuery :=
  { offset := none, limit := none, order := none, category := none }

/-- An order seen through everything but its `status` field. -/
def orderSansStatus (o : Order) : Nat × Nat × Nat × List OrderItem :=
  (o.id, o.userId, o.createdAt, o.orderItems)

/-! Helper lemmas. -/

/-- A decrement update rewrites stocks but keeps the rows and their ids. -/
theorem decrementProduct_ids (ps : List Product) (id q : Nat) (ps2 : List Product)
    (h : decrementProduct ps id q = some ps2) :
    ps2.map Product.id = ps.map Product.id := by
  unfold decrementProduct at h
  split at h
  · simp only [Option.some.injEq] at h
    subst h
    rw [List.map_map]
    apply List.map_congr_left
    intro p _
    simp only [Function.comp_apply]
    split <;> rfl
  · exact absurd h (by simp)

/-- If some query targets an id with no row, the decrement batch fails. -/
theorem runDecrements_missing (qs : List (Nat × Nat)) (ps : List Product)
    (pr : Nat × Nat) (hmem : pr ∈ qs) (hmiss : ∀ p ∈ ps, p.id ≠ pr.1) :
    runDecrements ps qs = none := by
  induction qs generalizing ps with
  | nil => cases hmem
  | cons hd tl ih =>
    obtain ⟨hid, hq⟩ := hd
    rcases List.mem_cons.mp hmem with heq | hmem2
    · subst heq
      have hany : ps.any (fun p => p.id == hid) = false := by
        rw [List.any_eq_false]
        intro p hp
        simpa using hmiss p hp
      simp [runDecrements, decrementProduct, hany]
    · cases hdp : decrementProduct ps hid hq with
      | none => simp [runDecrements, hdp]
      | some ps2 =>
        have hids := decrementProduct_ids ps hid hq ps2 hdp
        have hmiss2 : ∀ p ∈ ps2, p.id ≠ pr.1 := by
          intro p hp
          have hmm : p.id ∈ ps.map Product.id := by
            rw [← hids]
            exact List.mem_map_of_mem _ hp
          obtain ⟨p0, hp0, hpe⟩ := List.mem_map.mp hmm
          rw [← hpe]
          exact hmiss p0 hp0
        simp only [runDecrements, hdp]
        exact ih ps2 hmem2 hmiss2

/-- What a committed order transaction looks like: the order is appended
with all its items, the decrement batch succeeded on the old products, and
users are untouched. -/
theorem runTx_spec (db : DB) (userId : Nat) (reqItems : List OrderItemReq)
    (queries : List (Nat × Nat)) (o : Order) (db2 : DB)
    (h : runTx db userId reqItems queries = some (o, db2)) :
    db2.orders = db.orders ++ [o] ∧
    o.orderItems = reqItems.map (fun it =>
      ({ productId := it.productId, quantity := it.quantity,
         unitPrice := it.unitPrice } : OrderItem)) ∧
    runDecrements db.products queries = some db2.products ∧
    db2.users = db.users := by
  unfold runTx at h
  split at h
  · exact absurd h (by simp)
  · rename_i o1 db1 heq
    split at h
    · exact absurd h (by simp)
    · rename_i ps hd
      simp only [Option.some.injEq, Prod.mk.injEq] at h
      obtain ⟨ho, hdb⟩ := h
      unfold createOrderRow at heq
      split at heq
      · simp only [Option.some.injEq, Prod.mk.injEq] at heq
        obtain ⟨ho1, hdb1⟩ := heq
        subst hdb1
        subst ho1
        subst ho
        subst hdb
        exact ⟨rfl, rfl, hd, rfl⟩
      · exact absurd heq (by simp)

/-- An aborted order transaction: either the owner connect or some
decrement failed. -/
theorem runTx_products_frame (db : DB) (userId : Nat)
    (reqItems : List OrderItemReq) (queries : List (Nat × Nat))
    (hnone : runDecrements db.products queries = none) :
    runTx db userId reqItems queries = none := by
  unfold runTx
  split
  · rfl
  · rename_i o1 db1 heq
    have hp : db1.products = db.products := by
      unfold createOrderRow at heq
      split at heq
      · simp only [Option.some.injEq, Prod.mk.injEq] at heq
        obtain ⟨_, hdb1⟩ := heq
        subst hdb1
        rfl
      · exact absurd heq (by simp)
    rw [hp, hnone]

/-- The handler's running total is the sum of unitPrice times quantity. -/
theorem computeTotal_go (items : List OrderItem) (acc : Int) :
    items.foldl (fun total it => total + it.unitPrice * (it.quantity : Int)) acc
      = acc + (items.map (fun it => it.unitPrice * (it.quantity : Int))).sum := by
  induction items generalizing acc with
  | nil => simp
  | cons a as ih =>
    simp only [List.foldl_cons, List.map_cons, List.sum_cons]
    rw [ih]
    ring

/-- `computeTotal` computes the sum of unitPrice times quantity. -/
theorem computeTotal_eq_sum (items : List OrderItem) :
    computeTotal items
      = (items.map (fun it => it.unitPrice * (it.quantity : Int))).sum := by
  unfold computeTotal
  rw [computeTotal_go]
  simp

/-- Reduction of `postOrders` on the insufficient-stock branch. -/
theorem postOrders_of_insufficient (db : DB) (req : PlaceOrderReq)
    (h : isSufficientStock
      (findManyProducts db (req.orderItems.map (fun it => it.productId)))
      req.orderItems = false) :
    postOrders db req = (HandlerResult.err 500 ("Insufficient Stock"), db) := by
  simp [postOrders, h]

/-- Reduction of `postOrders` on the sufficient-stock branch. -/
theorem postOrders_of_sufficient (db : DB) (req : PlaceOrderReq)
    (h : isSufficientStock
      (findManyProducts db (req.orderItems.map (fun it => it.productId)))
      req.orderItems = true) :
    postOrders db req =
      match runTx db req.userId req.orderItems
        ((req.orderItems.map (fun it => it.productId)).map
          (fun id => (id, getQuantity req.orderItems id))) with
      | some (o, db2) => (HandlerResult.ok 200 o, db2)
      | none => (HandlerResult.err 404 (""), db) := by
  simp only [postOrders, h, Bool.not_true, Bool.false_eq_true, if_false]

/-! Claim theorems. -/

/-- C1: the claim asserts stock stays non-negative after every request,
in particular with a duplicated productId across lines.  The code violates
this: against a product with stock 5, two lines of quantity 3 for the same
productId pass the per-product check (5 ≥ 3) yet each line issues its own
decrement of the first line's quantity, so the request is accepted and the
final stock is -1. -/
theorem c1_duplicate_lines_drive_stock_negative :
    (∃ o, (postOrders dbDup reqDup).1 = HandlerResult.ok 200 o) ∧
    (postOrders dbDup reqDup).2.products.map Product.stock = [-1] :=
  ⟨⟨_, rfl⟩, by decide⟩

/-- C6: a request rejected by the sufficiency check returns the 500
"Insufficient Stock" response and leaves the database exactly as it was:
no stock change, no Order or OrderItem row. -/
theorem c6_rejection_has_no_side_effect (db : DB) (req : PlaceOrderReq)
    (h : isSufficientStock
      (findManyProducts db (req.orderItems.map (fun it => it.productId)))
      req.orderItems = false) :
    postOrders db req = (HandlerResult.err 500 ("Insufficient Stock"), db) := by
  simp [postOrders, h]

/-- Witness for C6 at stock 5 against a requested quantity of 6. -/
theorem c6_rejection_has_no_side_effect_witness :
    postOrders dbFive reqSix
      = (HandlerResult.err 500 ("Insufficient Stock"), dbFive) :=
  c6_rejection_has_no_side_effect dbFive reqSix (by decide)

/-- C5: against a product with stock 5, a single-line request of quantity 5
is accepted and leaves stock 0, and a single-line request of quantity 6 is
rejected with the "Insufficient Stock" response and leaves the database
unchanged — the sufficiency comparison is inclusive. -/
theorem c5_sufficiency_boundary :
    ((∃ o, (postOrders dbFive reqFive).1 = HandlerResult.ok 200 o) ∧
     (postOrders dbFive reqFive).2.products.map Product.stock = [0]) ∧
    postOrders dbFive reqSix
      = (HandlerResult.err 500 ("Insufficient Stock"), dbFive) :=
  ⟨⟨⟨_, rfl⟩, by decide⟩, by decide⟩

/-- C7: the claim asserts the insufficient-stock rejection carries a 4xx
status.  The code responds with status 500 — a server-error status — on the
insufficient-stock path. -/
theorem c7_insufficient_stock_is_500 :
    (postOrders dbFive reqSix).1 = HandlerResult.err 500 ("Insufficient Stock")
      ∧ ¬(400 ≤ 500 ∧ 500 < 500) :=
  ⟨rfl, by decide⟩

/-- C4: the claim asserts one decrement per distinct productId, by the
summed quantity over all lines.  The code issues one decrement per LINE,
each by the quantity of the FIRST line with that productId: with lines
(productId 1, qty 3) and (productId 1, qty 4) against stock 10, the
committed stock is 10 - 3 - 3 = 4, not 10 - (3 + 4) = 3. -/
theorem c4_decrements_are_per_line_not_aggregated :
    (∃ o, (postOrders dbAgg reqAgg).1 = HandlerResult.ok 200 o) ∧
    (postOrders dbAgg reqAgg).2.products.map Product.stock = [4] ∧
    ((4 : Int) ≠ 10 - (3 + 4)) :=
  ⟨⟨_, rfl⟩, by decide, by decide⟩

/-- C10: when the `limit` query parameter is omitted, both `GET /users` and
`GET /products` default it to 0, pass it as the `take` value, and therefore
return the empty list whatever records exist. -/
theorem c10_omitted_limit_returns_empty (db : DB) (q : ListQuery)
    (h : q.limit = none) :
    getUsers db q = [] ∧ getProducts db q = [] := by
  constructor
  · simp [getUsers, h]
  · simp [getProducts, h]

/-- Witness for C10 on a store with a user and a product on file. -/
theorem c10_omitted_limit_returns_empty_witness :
    getUsers dbList qNone = [] ∧ getProducts dbList qNone = [] :=
  c10_omitted_limit_returns_empty dbList qNone (by decide)

/-- C2: an order placement either leaves the database untouched, or commits
the Order row, all of its OrderItems, and every stock decrement together:
in the success case the response body is the new order, the order table
grew by exactly that order carrying one item per requested line, the
product table is the result of the whole decrement batch, and users are
untouched.  No partial subset of the writes is ever the outcome. -/
theorem c2_order_commit_is_all_or_nothing (db : DB) (req : PlaceOrderReq) :
    (postOrders db req).2 = db ∨
    ∃ o, (postOrders db req).1 = HandlerResult.ok 200 o ∧
      (postOrders db req).2.orders = db.orders ++ [o] ∧
      o.orderItems = req.orderItems.map (fun it =>
        ({ productId := it.productId, quantity := it.quantity,
           unitPrice := it.unitPrice } : OrderItem)) ∧
      runDecrements db.products
        ((req.orderItems.map (fun it => it.productId)).map
          (fun id => (id, getQuantity req.orderItems id)))
        = some (postOrders db req).2.products ∧
      (postOrders db req).2.users = db.users := by
  cases hs : isSufficientStock
      (findManyProducts db (req.orderItems.map (fun it => it.productId)))
      req.orderItems with
  | false =>
    left
    rw [postOrders_of_insufficient db req hs]
  | true =>
    have he := postOrders_of_sufficient db req hs
    cases ht : runTx db req.userId req.orderItems
        ((req.orderItems.map (fun it => it.productId)).map
          (fun id => (id, getQuantity req.orderItems id))) with
    | none =>
      left
      rw [he, ht]
    | some p =>
      obtain ⟨o, db2⟩ := p
      right
      rw [he, ht]
      obtain ⟨h1, h2, h3, h4⟩ := runTx_spec db req.userId req.orderItems _ o db2 ht
      exact ⟨o, rfl, h1, h2, h3, h4⟩

/-- C3 counterexample: against a store whose only product has id 1, a
request for the unknown productId 2 is NOT treated as insufficient stock:
the sufficiency check (which only ranges over fetched products) passes,
and the handler answers 404 — not the "Insufficient Stock" rejection the
claim requires. -/
theorem c3_missing_product_counterexample :
    isSufficientStock
      (findManyProducts dbMiss (reqMiss.orderItems.map (fun it => it.productId)))
      reqMiss.orderItems = true ∧
    postOrders dbMiss reqMiss = (HandlerResult.err 404 (""), dbMiss) ∧
    (HandlerResult.err 404 ("") : HandlerResult Order)
      ≠ HandlerResult.err 500 ("Insufficient Stock") :=
  ⟨by decide, by decide, by decide⟩

/-- C3 amended: a requested productId with no matching product is silently
skipped by the sufficiency check, yet the request is still rejected with an
error response and no mutation: the stock-decrement update for the missing
product fails inside the transaction and rolls the whole transaction
back — the rejection surfaces as a not-found error, not as
InsufficientStock. -/
theorem c3_missing_product_rejected_without_mutation (db : DB)
    (req : PlaceOrderReq) (it : OrderItemReq) (hit : it ∈ req.orderItems)
    (hmiss : ∀ p ∈ db.products, p.id ≠ it.productId) :
    (postOrders db req).2 = db ∧
    ∃ s m, (postOrders db req).1 = HandlerResult.err s m := by
  cases hs : isSufficientStock
      (findManyProducts db (req.orderItems.map (fun it => it.productId)))
      req.orderItems with
  | false =>
    rw [postOrders_of_insufficient db req hs]
    exact ⟨rfl, 500, "Insufficient Stock", rfl⟩
  | true =>
    have hq : (it.productId, getQuantity req.orderItems it.productId) ∈
        (req.orderItems.map (fun it => it.productId)).map
          (fun id => (id, getQuantity req.orderItems id)) :=
      List.mem_map_of_mem _ (List.mem_map_of_mem _ hit)
    have hnone := runTx_products_frame db req.userId req.orderItems _
      (runDecrements_missing _ db.products _ hq (fun p hp => hmiss p hp))
    rw [postOrders_of_sufficient db req hs, hnone]
    exact ⟨rfl, 404, "", rfl⟩

/-- Witness for the amended C3 at the unknown productId 2. -/
theorem c3_missing_product_rejected_without_mutation_witness :
    (postOrders dbMiss reqMiss).2 = dbMiss ∧
    ∃ s m, (postOrders dbMiss reqMiss).1 = HandlerResult.err s m :=
  c3_missing_product_rejected_without_mutation dbMiss reqMiss
    { productId := 2, quantity := 1, unitPrice := 5 } (by decide) (by decide)

/-- C8: when `GET /orders/:id` finds the order, the attached `total` equals
the sum over its orderItems of unitPrice times quantity. -/
theorem c8_get_order_total (db : DB) (id : Nat) (o : Order) (t : Int)
    (h : getOrderById db id = HandlerResult.ok 200 (o, t)) :
    t = (o.orderItems.map (fun it => it.unitPrice * (it.quantity : Int))).sum := by
  unfold getOrderById at h
  split at h
  · rename_i o1 hf
    simp only [HandlerResult.ok.injEq, Prod.mk.injEq] at h
    obtain ⟨-, ho, ht⟩ := h
    subst ho
    rw [← ht, computeTotal_eq_sum]
  · exact absurd h (by simp)

/-- Witness for C8: items (unitPrice 10, qty 2) and (unitPrice 5, qty 3)
yield total 35. -/
theorem c8_get_order_total_witness :
    (35 : Int) = (oTotal.orderItems.map
      (fun it => it.unitPrice * (it.quantity : Int))).sum :=
  c8_get_order_total dbTotal 1 oTotal 35 (by rfl)

/-- C9: patching an existing order changes at most its `status` field:
the response is the stored order with only `status` replaced, the whole
order table is unchanged up to `status` fields, and users and products are
untouched — whatever additional fields the validated body carries. -/
theorem c9_patch_changes_only_status (db : DB) (id : Nat)
    (body : PatchOrderBody) (o : Order)
    (h : db.orders.find? (fun x => x.id == id) = some o) :
    (∃ s, (patchOrderById db id body).1
        = HandlerResult.ok 200 { o with status := s }) ∧
    (patchOrderById db id body).2.orders.map orderSansStatus
      = db.orders.map orderSansStatus ∧
    (patchOrderById db id body).2.users = db.users ∧
    (patchOrderById db id body).2.products = db.products := by
  have he : patchOrderById db id body
      = (HandlerResult.ok 200 { o with status := body.status.getD o.status },
         { db with orders := db.orders.map (fun x =>
            if x.id == id then { x with status := body.status.getD x.status }
            else x) }) := by
    unfold patchOrderById
    rw [h]
  rw [he]
  refine ⟨⟨body.status.getD o.status, rfl⟩, ?_, rfl, rfl⟩
  rw [List.map_map]
  apply List.map_congr_left
  intro x _
  simp only [Function.comp_apply]
  split <;> rfl

/-- Witness for C9: patching order 1 with a body that carries an extra
field next to `status`. -/
theorem c9_patch_changes_only_status_witness :
    (∃ s, (patchOrderById dbPatch 1 bodyPatch).1
        = HandlerResult.ok 200 { oTotal with status := s }) ∧
    (patchOrderById dbPatch 1 bodyPatch).2.orders.map orderSansStatus
      = dbPatch.orders.map orderSansStatus ∧
    (patchOrderById dbPatch 1 bodyPatch).2.users = dbPatch.users ∧
    (patchOrderById dbPatch 1 bodyPatch).2.products = dbPatch.products :=
  c9_patch_changes_only_status dbPatch 1 bodyPatch oTotal (by decide)

end Comazon
